import Mathlib

/-!
Verification of the tagged-value layouts of the vm-value-perf benchmark
(src/bench.rs).

Modelling conventions of this shallow embedding:
* A 64-bit machine word, and likewise the bit pattern of an f64 double,
  is a natural number below 2 ^ 64.  Operations on words use the Nat
  bitwise operators, matching the u64 operators of the source.
* Floating-point arithmetic itself is not interpreted: the sum of two
  doubles is an uninterpreted parameter fadd on bit patterns, and the
  products i * 1.92 and i * 3.13 of the workload driver are
  uninterpreted families xnum, ynum of bit patterns.  Facts about which
  bit patterns real arithmetic can produce enter theorems as explicit
  hypotheses.
* Pointer-sized handles (the mut-pointer payload of Userdata) are words;
  casting between a pointer and u64 on the 64-bit host is the identity.
* The host is little-endian; to_ne_bytes and from_ne_bytes are modelled
  accordingly.
-/

namespace VmBench

def N : Nat := 1000000

def X_NIL_RATE : Nat := 13

def Y_NIL_RATE : Nat := 33

/-- The little-endian byte decomposition performed by u64::to_ne_bytes on
the (little-endian) host. -/
def u64_to_ne_bytes (w : Nat) : List Nat :=
  [w % 256, w / 2 ^ 8 % 256, w / 2 ^ 16 % 256, w / 2 ^ 24 % 256,
   w / 2 ^ 32 % 256, w / 2 ^ 40 % 256, w / 2 ^ 48 % 256, w / 2 ^ 56 % 256]

/-- The inverse recomposition performed by u64::from_ne_bytes on the host;
a list that is not 8 bytes long cannot arise from the fixed-size array of
the source, so it is mapped to 0. -/
def u64_from_ne_bytes (bs : List Nat) : Nat :=
  match bs with
  | [b0, b1, b2, b3, b4, b5, b6, b7] =>
      b0 + b1 * 2 ^ 8 + b2 * 2 ^ 16 + b3 * 2 ^ 24 +
      b4 * 2 ^ 32 + b5 * 2 ^ 40 + b6 * 2 ^ 48 + b7 * 2 ^ 56
  | _ => 0

/-- Truth of exactly one of three classifier results. -/
def exactly_one (a b c : Bool) : Prop :=
  a.toNat + b.toNat + c.toNat = 1

instance (a b c : Bool) : Decidable (exactly_one a b c) := by
  unfold exactly_one; infer_instance

namespace aligned_tagged

/-- The natural discriminated union of the aligned_tagged module; the f64
payload is its bit pattern, the mut-pointer payload is its word. -/
inductive Value where
  | Nil : Value
  | Number (bits : Nat) : Value
  | Userdata (h : Nat) : Value
deriving DecidableEq

/-- Classification is implicit in the variant (pattern inspection, as the
bench loop match does); exposed as the interface classifier. -/
def Value.is_nil : Value → Bool
  | .Nil => true
  | _ => false

def Value.is_number : Value → Bool
  | .Number _ => true
  | _ => false

def Value.is_userdata : Value → Bool
  | .Userdata _ => true
  | _ => false

/-- The loop body of bench_aligned on one element pair: match on the two
operands, sum of payloads (fadd abstracts f64 addition on bit patterns)
when both are Number, Nil otherwise. -/
def combine (fadd : Nat → Nat → Nat) (a b : Value) : Value :=
  match a, b with
  | .Number x, .Number y => .Number (fadd x y)
  | _, _ => .Nil

/-- Element i of the x input array of bench_aligned; xnum i abstracts the
bit pattern of i as f64 * 1.92. -/
def x_input (xnum : Nat → Nat) (i : Nat) : Value :=
  if i % X_NIL_RATE = 0 then .Nil else .Number (xnum i)

/-- Element i of the y input array of bench_aligned; ynum i abstracts the
bit pattern of i as f64 * 3.13. -/
def y_input (ynum : Nat → Nat) (i : Nat) : Value :=
  if i % Y_NIL_RATE = 0 then .Nil else .Number (ynum i)

/-- Element i of the results array after one pass of the bench_aligned
loop. -/
def bench_result (fadd : Nat → Nat → Nat) (xnum ynum : Nat → Nat) (i : Nat) : Value :=
  combine fadd (x_input xnum i) (y_input ynum i)

/-- Number of Nil elements in the results array after one pass. -/
def nil_count (fadd : Nat → Nat → Nat) (xnum ynum : Nat → Nat) : Nat :=
  ((Finset.range N).filter (fun i => (bench_result fadd xnum ynum i).is_nil = true)).card

end aligned_tagged

namespace separated_type_info

/-- The tag enum of the separated_type_info module. -/
inductive ValueKind where
  | Nil : ValueKind
  | Number : ValueKind
  | Userdata : ValueKind
deriving DecidableEq

/-- The payload union, tracked with its active member: the source union
stores Nil as unit, Number as f64 (its bit pattern here) and Userdata as a
mut pointer (its word here). -/
inductive ValueData where
  | Nil : ValueData
  | Number (bits : Nat) : ValueData
  | Userdata (h : Nat) : ValueData
deriving DecidableEq

/-- Union member read a.Number: defined by the source only when Number is
the active member (reading another member is undefined behaviour there);
the inactive branches return an arbitrary junk word, never relied upon. -/
def ValueData.read_number : ValueData → Nat
  | .Number bits => bits
  | _ => 0

def ValueKind.is_nil : ValueKind → Bool
  | .Nil => true
  | _ => false

def ValueKind.is_number : ValueKind → Bool
  | .Number => true
  | _ => false

def ValueKind.is_userdata : ValueKind → Bool
  | .Userdata => true
  | _ => false

/-- The loop body of bench_separated_type_info on one element pair: the
pair (payload written to r, tag written to rt). -/
def combine (fadd : Nat → Nat → Nat) (a : ValueData) (at_ : ValueKind)
    (b : ValueData) (bt : ValueKind) : ValueData × ValueKind :=
  match at_, bt with
  | .Number, .Number => (.Number (fadd a.read_number b.read_number), .Number)
  | _, _ => (.Nil, .Nil)

/-- Element i of the x payload array. -/
def x_data (xnum : Nat → Nat) (i : Nat) : ValueData :=
  if i % X_NIL_RATE = 0 then .Nil else .Number (xnum i)

/-- Element i of the x tag array (built in lockstep with the payloads). -/
def x_ts (i : Nat) : ValueKind :=
  if i % X_NIL_RATE = 0 then .Nil else .Number

def y_data (ynum : Nat → Nat) (i : Nat) : ValueData :=
  if i % Y_NIL_RATE = 0 then .Nil else .Number (ynum i)

def y_ts (i : Nat) : ValueKind :=
  if i % Y_NIL_RATE = 0 then .Nil else .Number

/-- Element i of the results payload and tag arrays after one pass. -/
def bench_result (fadd : Nat → Nat → Nat) (xnum ynum : Nat → Nat) (i : Nat) :
    ValueData × ValueKind :=
  combine fadd (x_data xnum i) (x_ts i) (y_data ynum i) (y_ts i)

/-- Number of elements tagged Nil in the result tag array after one pass. -/
def nil_count (fadd : Nat → Nat → Nat) (xnum ynum : Nat → Nat) : Nat :=
  ((Finset.range N).filter
    (fun i => (bench_result fadd xnum ynum i).2.is_nil = true)).card

end separated_type_info

namespace unaligned_tagged

/-- The discriminant enum of the unaligned_tagged module. -/
inductive ValueKind where
  | Nil : ValueKind
  | Number : ValueKind
  | Userdata : ValueKind
deriving DecidableEq

/-- The manually packed record: one discriminant byte and the 8 raw
payload bytes. -/
structure Value where
  discriminant : ValueKind
  data : List Nat
deriving DecidableEq

def Value.is_nil (v : Value) : Bool :=
  match v.discriminant with
  | .Nil => true
  | _ => false

def Value.is_number (v : Value) : Bool :=
  match v.discriminant with
  | .Number => true
  | _ => false

def Value.is_userdata (v : Value) : Bool :=
  match v.discriminant with
  | .Userdata => true
  | _ => false

/-- f64::from_bits(u64::from_ne_bytes(self.data)): the f64 read is its
bit pattern. -/
def Value.as_number_unchecked (v : Value) : Nat :=
  u64_from_ne_bytes v.data

def Value.as_number (v : Value) : Option Nat :=
  if v.is_number then some v.as_number_unchecked else none

/-- transmute(u64::from_ne_bytes(self.data)): the pointer read is its
word. -/
def Value.as_userdata_unchecked (v : Value) : Nat :=
  u64_from_ne_bytes v.data

def Value.as_userdata (v : Value) : Option Nat :=
  if v.is_userdata then some v.as_userdata_unchecked else none

def Value.from_nil : Value :=
  { discriminant := .Nil, data := u64_to_ne_bytes 0 }

def Value.from_number (data : Nat) : Value :=
  { discriminant := .Number, data := u64_to_ne_bytes data }

def Value.from_userdata (data : Nat) : Value :=
  { discriminant := .Userdata, data := u64_to_ne_bytes data }

/-- The loop body of bench_unaligned on one element pair: match on the two
discriminants, unchecked payload reads and from_number on a double match,
from_nil otherwise. -/
def combine (fadd : Nat → Nat → Nat) (a b : Value) : Value :=
  match a.discriminant, b.discriminant with
  | .Number, .Number =>
      Value.from_number (fadd a.as_number_unchecked b.as_number_unchecked)
  | _, _ => Value.from_nil

def x_input (xnum : Nat → Nat) (i : Nat) : Value :=
  if i % X_NIL_RATE = 0 then Value.from_nil else Value.from_number (xnum i)

def y_input (ynum : Nat → Nat) (i : Nat) : Value :=
  if i % Y_NIL_RATE = 0 then Value.from_nil else Value.from_number (ynum i)

def bench_result (fadd : Nat → Nat → Nat) (xnum ynum : Nat → Nat) (i : Nat) : Value :=
  combine fadd (x_input xnum i) (y_input ynum i)

def nil_count (fadd : Nat → Nat → Nat) (xnum ynum : Nat → Nat) : Nat :=
  ((Finset.range N).filter (fun i => (bench_result fadd xnum ynum i).is_nil = true)).card

end unaligned_tagged

namespace nan_tagged

/-- The tag constants of the nan_tagged module, a repr(u64) enum whose
discriminant values live in bits 48..50. -/
inductive ValueKind where
  | Number : ValueKind
  | Nil : ValueKind
  | Userdata : ValueKind
deriving DecidableEq

/-- The u64 value of each enum discriminant (ValueKind as u64). -/
def ValueKind.toU64 : ValueKind → Nat
  | .Number => 0 <<< 48
  | .Nil => 1 <<< 48
  | .Userdata => 2 <<< 48

/-- The single 64-bit word of the nan_tagged layout
(struct Value(u64)). -/
structure Value where
  bits : Nat
deriving DecidableEq

def NAN_MASK : Nat :=
  0b0111111111111000000000000000000000000000000000000000000000000000

def TYPE_MASK : Nat :=
  0b0000000000000111000000000000000000000000000000000000000000000000

def DATA_MASK : Nat :=
  0b0000000000000000111111111111111111111111111111111111111111111111

def Value.get_nan_segment (v : Value) : Nat := v.bits &&& NAN_MASK

def Value.get_type_segment (v : Value) : Nat := v.bits &&& TYPE_MASK

def Value.get_data_segment (v : Value) : Nat := v.bits &&& DATA_MASK

def Value.is_nan (v : Value) : Bool :=
  v.get_nan_segment == NAN_MASK

def Value.compare_type_segment (v : Value) (discriminator : ValueKind) : Bool :=
  v.get_type_segment == discriminator.toU64

def Value.is_number (v : Value) : Bool :=
  !v.is_nan || v.compare_type_segment .Number

def Value.is_nil (v : Value) : Bool :=
  v.is_nan && v.compare_type_segment .Nil

def Value.is_userdata (v : Value) : Bool :=
  v.is_nan && v.compare_type_segment .Userdata

/-- Reinterpretation of the word as f64: its bit pattern. -/
def Value.as_number_unchecked (v : Value) : Nat := v.bits

def Value.as_number (v : Value) : Option Nat :=
  if v.is_number then some v.as_number_unchecked else none

def Value.as_userdata_unchecked (v : Value) : Nat := v.get_data_segment

def Value.as_userdata (v : Value) : Option Nat :=
  if v.is_userdata then some v.as_userdata_unchecked else none

/-- transmute(data): the f64 bit pattern is stored verbatim. -/
def Value.from_number (data : Nat) : Value := ⟨data⟩

def Value.from_nil : Value := ⟨NAN_MASK ||| ValueKind.Nil.toU64⟩

def Value.from_userdata (data : Nat) : Value :=
  ⟨data ||| NAN_MASK ||| ValueKind.Userdata.toU64⟩

/-- The loop body of bench_nan_tagged on one element pair. -/
def combine (fadd : Nat → Nat → Nat) (a b : Value) : Value :=
  match a.is_number, b.is_number with
  | true, true =>
      Value.from_number (fadd a.as_number_unchecked b.as_number_unchecked)
  | _, _ => Value.from_nil

def x_input (xnum : Nat → Nat) (i : Nat) : Value :=
  if i % X_NIL_RATE = 0 then Value.from_nil else Value.from_number (xnum i)

def y_input (ynum : Nat → Nat) (i : Nat) : Value :=
  if i % Y_NIL_RATE = 0 then Value.from_nil else Value.from_number (ynum i)

def bench_result (fadd : Nat → Nat → Nat) (xnum ynum : Nat → Nat) (i : Nat) : Value :=
  combine fadd (x_input xnum i) (y_input ynum i)

def nil_count (fadd : Nat → Nat → Nat) (xnum ynum : Nat → Nat) : Nat :=
  ((Finset.range N).filter (fun i => (bench_result fadd xnum ynum i).is_nil = true)).card

end nan_tagged

/-- The reference count of the end-to-end scenario: indices whose x or y
input slot is Nil. -/
def reference_nil_count : Nat :=
  ((Finset.range N).filter (fun i => i % X_NIL_RATE = 0 ∨ i % Y_NIL_RATE = 0)).card

/-- Collision of a bit pattern with the reserved sentinel region of the
nan_tagged layout: the NaN-signature bits all set together with a nonzero
type segment. -/
def collides_with_sentinel (x : Nat) : Prop :=
  x &&& nan_tagged.NAN_MASK = nan_tagged.NAN_MASK ∧ x &&& nan_tagged.TYPE_MASK ≠ 0

instance (x : Nat) : Decidable (collides_with_sentinel x) := by
  unfold collides_with_sentinel; infer_instance

/-- Finiteness of an f64 in terms of its bit pattern: the exponent field
(bits 52 to 62) is not all ones. -/
def finite_f64_bits (x : Nat) : Prop :=
  x &&& 0x7FF0000000000000 ≠ 0x7FF0000000000000

instance (x : Nat) : Decidable (finite_f64_bits x) := by
  unfold finite_f64_bits; infer_instance

theorem u64_bytes_roundtrip (w : Nat) (hw : w < 2 ^ 64) :
    u64_from_ne_bytes (u64_to_ne_bytes w) = w := by
  simp only [u64_to_ne_bytes, u64_from_ne_bytes]
  omega

theorem and_high_zero {h : Nat} (hh : h < 2 ^ 48) {m : Nat}
    (hm : (2 ^ 48 - 1) &&& m = 0) : h &&& m = 0 := by
  have h1 : h &&& (2 ^ 48 - 1) = h := Nat.and_pow_two_sub_one_of_lt_two_pow hh
  calc h &&& m = h &&& (2 ^ 48 - 1) &&& m := by rw [h1]
    _ = h &&& ((2 ^ 48 - 1) &&& m) := Nat.and_assoc _ _ _
    _ = h &&& 0 := by rw [hm]
    _ = 0 := Nat.and_zero h

namespace nan_tagged

theorem from_userdata_nan_segment {h : Nat} (hh : h < 2 ^ 48) :
    (Value.from_userdata h).get_nan_segment = NAN_MASK := by
  show (h ||| NAN_MASK ||| ValueKind.Userdata.toU64) &&& NAN_MASK = NAN_MASK
  rw [Nat.and_distrib_right, Nat.and_distrib_right,
    and_high_zero hh (by decide)]
  decide

theorem from_userdata_type_segment {h : Nat} (hh : h < 2 ^ 48) :
    (Value.from_userdata h).get_type_segment = ValueKind.Userdata.toU64 := by
  show (h ||| NAN_MASK ||| ValueKind.Userdata.toU64) &&& TYPE_MASK = ValueKind.Userdata.toU64
  rw [Nat.and_distrib_right, Nat.and_distrib_right,
    and_high_zero hh (by decide)]
  decide

theorem from_userdata_data_segment {h : Nat} (hh : h < 2 ^ 48) :
    (Value.from_userdata h).get_data_segment = h := by
  show (h ||| NAN_MASK ||| ValueKind.Userdata.toU64) &&& DATA_MASK = h
  have hD : DATA_MASK = 2 ^ 48 - 1 := by decide
  rw [Nat.and_distrib_right, Nat.and_distrib_right, hD,
    Nat.and_pow_two_sub_one_of_lt_two_pow hh,
    show NAN_MASK &&& (2 ^ 48 - 1) = 0 from by decide,
    show ValueKind.Userdata.toU64 &&& (2 ^ 48 - 1) = 0 from by decide,
    Nat.or_zero, Nat.or_zero]

theorem from_userdata_classifies {h : Nat} (hh : h < 2 ^ 48) :
    (Value.from_userdata h).is_userdata = true ∧
    (Value.from_userdata h).is_nil = false ∧
    (Value.from_userdata h).is_number = false := by
  have hn := from_userdata_nan_segment hh
  have ht := from_userdata_type_segment hh
  simp only [Value.is_userdata, Value.is_nil, Value.is_number, Value.is_nan,
    Value.compare_type_segment, hn, ht]
  decide

theorem beq_and_beq_of_ne {t a b : Nat} (hab : a ≠ b) :
    ((t == a) && (t == b)) = false := by
  by_cases h : t = a
  · subst h
    simp only [beq_self_eq_true, Bool.true_and, beq_eq_false_iff_ne, ne_eq]
    exact hab
  · simp [h]

theorem classifier_eval (x : Nat) :
    (⟨x⟩ : Value).is_nil =
      ((x &&& NAN_MASK == NAN_MASK) && (x &&& TYPE_MASK == 1 <<< 48)) ∧
    (⟨x⟩ : Value).is_number =
      (!(x &&& NAN_MASK == NAN_MASK) || (x &&& TYPE_MASK == 0 <<< 48)) ∧
    (⟨x⟩ : Value).is_userdata =
      ((x &&& NAN_MASK == NAN_MASK) && (x &&& TYPE_MASK == 2 <<< 48)) :=
  ⟨rfl, rfl, rfl⟩

end nan_tagged

namespace nan_tagged

/-- Claim C9: in the NaN-Tagged layout the three classifiers is_nil,
is_number and is_userdata are pairwise disjoint over every 64-bit word
(stated for every natural number word, a superset): is_nil and
is_userdata each require the NaN-signature bits plus a distinct nonzero
type-segment constant, while is_number requires a non-matching NaN
signature or the zero type segment. -/
theorem classifiers_pairwise_disjoint (w : Nat) :
    (Value.is_nil ⟨w⟩ && Value.is_number ⟨w⟩) = false ∧
    (Value.is_nil ⟨w⟩ && Value.is_userdata ⟨w⟩) = false ∧
    (Value.is_number ⟨w⟩ && Value.is_userdata ⟨w⟩) = false := by
  have e1 : Value.is_nil ⟨w⟩ =
      ((w &&& NAN_MASK == NAN_MASK) && (w &&& TYPE_MASK == 1 <<< 48)) := rfl
  have e2 : Value.is_number ⟨w⟩ =
      (!(w &&& NAN_MASK == NAN_MASK) || (w &&& TYPE_MASK == 0 <<< 48)) := rfl
  have e3 : Value.is_userdata ⟨w⟩ =
      ((w &&& NAN_MASK == NAN_MASK) && (w &&& TYPE_MASK == 2 <<< 48)) := rfl
  rw [e1, e2, e3]
  cases hB : (w &&& NAN_MASK == NAN_MASK) with
  | false => simp
  | true =>
      simp only [Bool.true_and, Bool.not_true, Bool.false_or]
      refine ⟨?_, ?_, ?_⟩
      · rw [Bool.and_comm]
        exact beq_and_beq_of_ne (by decide)
      · exact beq_and_beq_of_ne (by decide)
      · exact beq_and_beq_of_ne (by decide)

end nan_tagged

/-- Claim C5: evaluation of the code at the failing input. A handle with
bit 48 set overflows the 48-bit data segment; from_userdata performs no
check and the OR corrupts the type segment to 3 <<< 48, so the result
classifies as none of Userdata, Nil, or Number, with no rejection or
flag: the constructor silently returns the corrupted word. -/
theorem nan_from_userdata_overflow_corrupts_tag :
    (nan_tagged.Value.from_userdata (2 ^ 48)).is_userdata = false ∧
    (nan_tagged.Value.from_userdata (2 ^ 48)).is_nil = false ∧
    (nan_tagged.Value.from_userdata (2 ^ 48)).is_number = false ∧
    (nan_tagged.Value.from_userdata (2 ^ 48)).get_type_segment = 3 <<< 48 := by
  decide

/-- Claim C2 counterexample: from_number applied to the NaN bit pattern
0x7FFB000000000000 (NaN-signature bits set, type segment 3) yields a
value in the NaN-Tagged layout for which none of is_nil, is_number,
is_userdata returns true, refuting totality of classification for
arbitrary NaN bit patterns. -/
theorem classification_not_total_on_arbitrary_nan :
    (nan_tagged.Value.from_number 0x7FFB000000000000).is_nil = false ∧
    (nan_tagged.Value.from_number 0x7FFB000000000000).is_number = false ∧
    (nan_tagged.Value.from_number 0x7FFB000000000000).is_userdata = false := by
  decide

/-- Claim C2 (amended): classification is total and disjoint for all
constructed values of the aligned, separated and unaligned layouts; in
the NaN-Tagged layout exactly one classifier holds for from_nil, for
from_number on every bit pattern that does not set the NaN-signature bits
together with a type segment outside the three assigned constants, and
for from_userdata on every handle fitting the 48-bit data segment. -/
theorem classification_exactly_one_amended :
    (∀ v : aligned_tagged.Value,
      exactly_one v.is_nil v.is_number v.is_userdata) ∧
    (∀ k : separated_type_info.ValueKind,
      exactly_one k.is_nil k.is_number k.is_userdata) ∧
    (∀ v : unaligned_tagged.Value,
      exactly_one v.is_nil v.is_number v.is_userdata) ∧
    exactly_one nan_tagged.Value.from_nil.is_nil
      nan_tagged.Value.from_nil.is_number nan_tagged.Value.from_nil.is_userdata ∧
    (∀ x : Nat,
      ¬(x &&& nan_tagged.NAN_MASK = nan_tagged.NAN_MASK ∧
        x &&& nan_tagged.TYPE_MASK ≠ nan_tagged.ValueKind.Number.toU64 ∧
        x &&& nan_tagged.TYPE_MASK ≠ nan_tagged.ValueKind.Nil.toU64 ∧
        x &&& nan_tagged.TYPE_MASK ≠ nan_tagged.ValueKind.Userdata.toU64) →
      exactly_one (nan_tagged.Value.from_number x).is_nil
        (nan_tagged.Value.from_number x).is_number
        (nan_tagged.Value.from_number x).is_userdata) ∧
    (∀ h : Nat, h < 2 ^ 48 →
      exactly_one (nan_tagged.Value.from_userdata h).is_nil
        (nan_tagged.Value.from_userdata h).is_number
        (nan_tagged.Value.from_userdata h).is_userdata) := by
  refine ⟨?_, ?_, ?_, ?_, ?_, ?_⟩
  · intro v; cases v <;> rfl
  · intro k; cases k <;> rfl
  · intro v; obtain ⟨d, data⟩ := v; cases d <;> rfl
  · decide
  · intro x hx
    simp only [nan_tagged.ValueKind.toU64] at hx
    simp only [nan_tagged.Value.from_number]
    obtain ⟨e1, e2, e3⟩ := nan_tagged.classifier_eval x
    unfold exactly_one
    rw [e1, e2, e3]
    by_cases hn : x &&& nan_tagged.NAN_MASK = nan_tagged.NAN_MASK
    · have hbn : (x &&& nan_tagged.NAN_MASK == nan_tagged.NAN_MASK) = true := by
        simp [hn]
      rw [hbn]
      push_neg at hx
      by_cases h0 : x &&& nan_tagged.TYPE_MASK = 0 <<< 48
      · have b0 : (x &&& nan_tagged.TYPE_MASK == 0 <<< 48) = true := by simp [h0]
        have b1 : (x &&& nan_tagged.TYPE_MASK == 1 <<< 48) = false := by
          rw [h0]; decide
        have b2 : (x &&& nan_tagged.TYPE_MASK == 2 <<< 48) = false := by
          rw [h0]; decide
        rw [b0, b1, b2]; decide
      · by_cases h1 : x &&& nan_tagged.TYPE_MASK = 1 <<< 48
        · have b0 : (x &&& nan_tagged.TYPE_MASK == 0 <<< 48) = false := by
            rw [h1]; decide
          have b1 : (x &&& nan_tagged.TYPE_MASK == 1 <<< 48) = true := by simp [h1]
          have b2 : (x &&& nan_tagged.TYPE_MASK == 2 <<< 48) = false := by
            rw [h1]; decide
          rw [b0, b1, b2]; decide
        · have h2 : x &&& nan_tagged.TYPE_MASK = 2 <<< 48 := hx hn h0 h1
          have b0 : (x &&& nan_tagged.TYPE_MASK == 0 <<< 48) = false := by
            rw [h2]; decide
          have b1 : (x &&& nan_tagged.TYPE_MASK == 1 <<< 48) = false := by
            rw [h2]; decide
          have b2 : (x &&& nan_tagged.TYPE_MASK == 2 <<< 48) = true := by simp [h2]
          rw [b0, b1, b2]; decide
    · have hbn : (x &&& nan_tagged.NAN_MASK == nan_tagged.NAN_MASK) = false := by
        simp [hn]
      rw [hbn]
      simp
  · intro h hh
    obtain ⟨h1, h2, h3⟩ := nan_tagged.from_userdata_classifies hh
    unfold exactly_one
    rw [h1, h2, h3]
    decide

/-- Claim C10: in the NaN-Tagged layout, for every handle fitting the
48-bit data segment, as_userdata inverts from_userdata, and the returned
handle is the stored word masked by DATA_MASK: the NaN-signature and
type-segment bits are stripped on extraction. -/
theorem nan_userdata_roundtrip (h : Nat) (hh : h < 2 ^ 48) :
    (nan_tagged.Value.from_userdata h).as_userdata = some h ∧
    (nan_tagged.Value.from_userdata h).as_userdata =
      some ((nan_tagged.Value.from_userdata h).bits &&& nan_tagged.DATA_MASK) ∧
    (nan_tagged.Value.from_userdata h).bits &&& nan_tagged.DATA_MASK = h := by
  have hd : (nan_tagged.Value.from_userdata h).get_data_segment = h :=
    nan_tagged.from_userdata_data_segment hh
  have hu : (nan_tagged.Value.from_userdata h).is_userdata = true :=
    (nan_tagged.from_userdata_classifies hh).1
  have hmask : (nan_tagged.Value.from_userdata h).bits &&& nan_tagged.DATA_MASK = h := hd
  refine ⟨?_, ?_, hmask⟩ <;>
    simp only [nan_tagged.Value.as_userdata, hu, if_true,
      nan_tagged.Value.as_userdata_unchecked, hd, hmask]

/-- Concrete instance of the amended claim C2: the NaN-Tagged conjuncts
applied to the bit pattern of 1.0, to a small handle, and the aligned
conjunct applied to Nil. -/
theorem classification_exactly_one_amended_witness :
    exactly_one (nan_tagged.Value.from_number 0x3FF0000000000000).is_nil
      (nan_tagged.Value.from_number 0x3FF0000000000000).is_number
      (nan_tagged.Value.from_number 0x3FF0000000000000).is_userdata ∧
    exactly_one (nan_tagged.Value.from_userdata 99).is_nil
      (nan_tagged.Value.from_userdata 99).is_number
      (nan_tagged.Value.from_userdata 99).is_userdata ∧
    exactly_one aligned_tagged.Value.Nil.is_nil
      aligned_tagged.Value.Nil.is_number aligned_tagged.Value.Nil.is_userdata :=
  ⟨classification_exactly_one_amended.2.2.2.2.1 0x3FF0000000000000 (by decide),
   classification_exactly_one_amended.2.2.2.2.2 99 (by decide),
   classification_exactly_one_amended.1 .Nil⟩

/-- Concrete instance of claim C10 at handle 7. -/
theorem nan_userdata_roundtrip_witness :
    (nan_tagged.Value.from_userdata 7).as_userdata = some 7 :=
  (nan_userdata_roundtrip 7 (by decide)).1

theorem not_collides_of_finite {x : Nat} (hf : finite_f64_bits x) :
    ¬collides_with_sentinel x := by
  rintro ⟨hn, -⟩
  apply hf
  have h1 : nan_tagged.NAN_MASK &&& 0x7FF0000000000000 = 0x7FF0000000000000 := by
    decide
  calc x &&& 0x7FF0000000000000
      = x &&& (nan_tagged.NAN_MASK &&& 0x7FF0000000000000) := by rw [h1]
    _ = (x &&& nan_tagged.NAN_MASK) &&& 0x7FF0000000000000 :=
        (Nat.and_assoc _ _ _).symm
    _ = nan_tagged.NAN_MASK &&& 0x7FF0000000000000 := by rw [hn]
    _ = 0x7FF0000000000000 := h1

namespace nan_tagged

theorem classifies_number_of_not_sentinel {x : Nat}
    (hnc : ¬collides_with_sentinel x) :
    (⟨x⟩ : Value).is_number = true ∧ (⟨x⟩ : Value).is_nil = false ∧
    (⟨x⟩ : Value).is_userdata = false := by
  obtain ⟨e1, e2, e3⟩ := classifier_eval x
  unfold collides_with_sentinel at hnc
  push_neg at hnc
  by_cases hn : x &&& NAN_MASK = NAN_MASK
  · have ht : x &&& TYPE_MASK = 0 := hnc hn
    have bn : (x &&& NAN_MASK == NAN_MASK) = true := by simp [hn]
    have b0 : (x &&& TYPE_MASK == 0 <<< 48) = true := by rw [ht]; decide
    have b1 : (x &&& TYPE_MASK == 1 <<< 48) = false := by rw [ht]; decide
    have b2 : (x &&& TYPE_MASK == 2 <<< 48) = false := by rw [ht]; decide
    rw [e1, e2, e3, bn, b0, b1, b2]
    decide
  · have bn : (x &&& NAN_MASK == NAN_MASK) = false := by simp [hn]
    rw [e1, e2, e3, bn]
    simp

end nan_tagged

/-- Claim C3: in both layouts that expose as_number and from_number
(Unaligned Tagged Struct and NaN-Tagged), for every 64-bit f64 bit
pattern x that is finite or does not collide with the reserved NaN
sentinel region, as_number (from_number x) = some x; the embedding
carries exact bit patterns, so the sign of zero and the payload bits of
NaN inputs are preserved bit for bit. -/
theorem as_number_from_number_roundtrip (x : Nat) (hx : x < 2 ^ 64)
    (hok : finite_f64_bits x ∨ ¬collides_with_sentinel x) :
    (unaligned_tagged.Value.from_number x).as_number = some x ∧
    (nan_tagged.Value.from_number x).as_number = some x := by
  constructor
  · have h1 : (unaligned_tagged.Value.from_number x).is_number = true := rfl
    have h2 : (unaligned_tagged.Value.from_number x).as_number_unchecked = x :=
      u64_bytes_roundtrip x hx
    simp [unaligned_tagged.Value.as_number, h1, h2]
  · have hnc : ¬collides_with_sentinel x := by
      rcases hok with hf | hnc
      · exact not_collides_of_finite hf
      · exact hnc
    have hnum : (nan_tagged.Value.from_number x).is_number = true :=
      (nan_tagged.classifies_number_of_not_sentinel hnc).1
    have hnum2 : ((⟨x⟩ : nan_tagged.Value)).is_number = true := hnum
    simp [nan_tagged.Value.as_number, hnum, hnum2,
      nan_tagged.Value.as_number_unchecked, nan_tagged.Value.from_number]

/-- Concrete instance of claim C3 at the bit pattern of 1.5. -/
theorem as_number_from_number_roundtrip_witness :
    (unaligned_tagged.Value.from_number 0x3FF8000000000000).as_number =
      some 0x3FF8000000000000 ∧
    (nan_tagged.Value.from_number 0x3FF8000000000000).as_number =
      some 0x3FF8000000000000 :=
  as_number_from_number_roundtrip 0x3FF8000000000000 (by decide) (.inl (by decide))

/-- Claim C4: in the NaN-Tagged layout from_number stores the bit pattern
of its argument verbatim, and for every pattern that does not match the
reserved sentinel region (NaN-signature bits with a nonzero type
segment, never produced by ordinary arithmetic) the result classifies as
Number and never as Nil or Userdata. -/
theorem nan_from_number_verbatim_classifies_number (x : Nat)
    (hok : ¬collides_with_sentinel x) :
    (nan_tagged.Value.from_number x).bits = x ∧
    (nan_tagged.Value.from_number x).is_number = true ∧
    (nan_tagged.Value.from_number x).is_nil = false ∧
    (nan_tagged.Value.from_number x).is_userdata = false := by
  obtain ⟨h1, h2, h3⟩ := nan_tagged.classifies_number_of_not_sentinel hok
  exact ⟨rfl, h1, h2, h3⟩

/-- Concrete instance of claim C4 at the bit pattern of +0.0. -/
theorem nan_from_number_verbatim_classifies_number_witness :
    (nan_tagged.Value.from_number 0).is_number = true :=
  (nan_from_number_verbatim_classifies_number 0 (by decide)).2.1

/-- Claim C6: in the Unaligned Tagged Struct and NaN-Tagged layouts the
checked accessors are total and return empty on mismatch: as_number
yields some exactly when is_number holds, then carrying the payload
decoded as a double via the unchecked read, and none otherwise; likewise
as_userdata with is_userdata. -/
theorem checked_accessors_total :
    (∀ v : unaligned_tagged.Value,
      v.as_number.isSome = v.is_number ∧
      (v.is_number = true → v.as_number = some v.as_number_unchecked) ∧
      (v.is_number = false → v.as_number = none) ∧
      v.as_userdata.isSome = v.is_userdata ∧
      (v.is_userdata = true → v.as_userdata = some v.as_userdata_unchecked) ∧
      (v.is_userdata = false → v.as_userdata = none)) ∧
    (∀ v : nan_tagged.Value,
      v.as_number.isSome = v.is_number ∧
      (v.is_number = true → v.as_number = some v.as_number_unchecked) ∧
      (v.is_number = false → v.as_number = none) ∧
      v.as_userdata.isSome = v.is_userdata ∧
      (v.is_userdata = true → v.as_userdata = some v.as_userdata_unchecked) ∧
      (v.is_userdata = false → v.as_userdata = none)) := by
  constructor
  · intro v
    refine ⟨?_, fun h => ?_, fun h => ?_, ?_, fun h => ?_, fun h => ?_⟩
    · cases hn : v.is_number <;> simp [unaligned_tagged.Value.as_number, hn]
    · simp [unaligned_tagged.Value.as_number, h]
    · simp [unaligned_tagged.Value.as_number, h]
    · cases hn : v.is_userdata <;> simp [unaligned_tagged.Value.as_userdata, hn]
    · simp [unaligned_tagged.Value.as_userdata, h]
    · simp [unaligned_tagged.Value.as_userdata, h]
  · intro v
    refine ⟨?_, fun h => ?_, fun h => ?_, ?_, fun h => ?_, fun h => ?_⟩
    · cases hn : v.is_number <;> simp [nan_tagged.Value.as_number, hn]
    · simp [nan_tagged.Value.as_number, h]
    · simp [nan_tagged.Value.as_number, h]
    · cases hn : v.is_userdata <;> simp [nan_tagged.Value.as_userdata, hn]
    · simp [nan_tagged.Value.as_userdata, h]
    · simp [nan_tagged.Value.as_userdata, h]

/-- Concrete instance of claim C6: the unaligned accessor at a Number
value and the NaN-Tagged userdata accessor at a Nil value. -/
theorem checked_accessors_total_witness :
    (unaligned_tagged.Value.from_number 12).as_number =
      some (unaligned_tagged.Value.from_number 12).as_number_unchecked ∧
    nan_tagged.Value.from_nil.as_userdata = none :=
  ⟨(checked_accessors_total.1 (unaligned_tagged.Value.from_number 12)).2.1 rfl,
   (checked_accessors_total.2 nan_tagged.Value.from_nil).2.2.2.2.2 (by decide)⟩

/-- Claim C1: in every layout the combine kernel produces the Number
encoding of the sum of the payloads precisely when both operands
classify as Number, and the Nil encoding otherwise.  fadd abstracts f64
addition on bit patterns; the hypothesis habc records the exact IEEE
fact 2.0 + 3.0 = 5.0, so the concrete conjuncts instantiate the table of
the spec: (Number 2.0, Number 3.0) gives Number 5.0 and any pair with a
Nil or Userdata operand gives Nil. -/
theorem combine_kernel_correct (fadd : Nat → Nat → Nat)
    (habc : fadd 0x4000000000000000 0x4008000000000000 = 0x4014000000000000) :
    (∀ a b r, aligned_tagged.combine fadd a b = .Number r ↔
      ∃ x y, a = .Number x ∧ b = .Number y ∧ r = fadd x y) ∧
    (∀ a b, aligned_tagged.combine fadd a b = .Nil ↔
      ¬(a.is_number = true ∧ b.is_number = true)) ∧
    aligned_tagged.combine fadd (.Number 0x4000000000000000)
      (.Number 0x4008000000000000) = .Number 0x4014000000000000 ∧
    (∀ (a b : separated_type_info.ValueData)
       (at_ bt : separated_type_info.ValueKind) (x y : Nat),
      at_ = .Number → bt = .Number → a = .Number x → b = .Number y →
      separated_type_info.combine fadd a at_ b bt = (.Number (fadd x y), .Number)) ∧
    (∀ (a : separated_type_info.ValueData) (at_ : separated_type_info.ValueKind)
       (b : separated_type_info.ValueData) (bt : separated_type_info.ValueKind),
      ¬(at_.is_number = true ∧ bt.is_number = true) →
      separated_type_info.combine fadd a at_ b bt = (.Nil, .Nil)) ∧
    (∀ (a b : unaligned_tagged.Value) (x y : Nat),
      a.as_number = some x → b.as_number = some y →
      unaligned_tagged.combine fadd a b = .from_number (fadd x y)) ∧
    (∀ a b : unaligned_tagged.Value,
      ¬(a.is_number = true ∧ b.is_number = true) →
      unaligned_tagged.combine fadd a b = .from_nil) ∧
    (∀ (a b : nan_tagged.Value) (x y : Nat),
      a.as_number = some x → b.as_number = some y →
      nan_tagged.combine fadd a b = .from_number (fadd x y)) ∧
    (∀ a b : nan_tagged.Value,
      ¬(a.is_number = true ∧ b.is_number = true) →
      nan_tagged.combine fadd a b = .from_nil) ∧
    nan_tagged.combine fadd (.from_number 0x4000000000000000)
      (.from_number 0x4008000000000000) = .from_number 0x4014000000000000 ∧
    (∀ b : nan_tagged.Value, nan_tagged.combine fadd .from_nil b = .from_nil) ∧
    (∀ (h : Nat) (b : nan_tagged.Value), h < 2 ^ 48 →
      nan_tagged.combine fadd (.from_userdata h) b = .from_nil) := by
  refine ⟨?_, ?_, ?_, ?_, ?_, ?_, ?_, ?_, ?_, ?_, ?_, ?_⟩
  · intro a b r
    cases a <;> cases b <;> simp [aligned_tagged.combine, eq_comm]
  · intro a b
    cases a <;> cases b <;>
      simp [aligned_tagged.combine, aligned_tagged.Value.is_number]
  · simp [aligned_tagged.combine, habc]
  · intro a b at_ bt x y hat hbt ha hb
    subst hat; subst hbt; subst ha; subst hb
    rfl
  · intro a at_ b bt hn
    cases at_ <;> cases bt <;> try rfl
    exact absurd ⟨rfl, rfl⟩ hn
  · intro a b x y ha hb
    rcases a with ⟨da, dataa⟩
    rcases b with ⟨db, datab⟩
    cases da <;> cases db <;>
      simp [unaligned_tagged.Value.as_number,
        unaligned_tagged.Value.is_number] at ha hb
    subst ha; subst hb
    rfl
  · intro a b hn
    rcases a with ⟨da, dataa⟩
    rcases b with ⟨db, datab⟩
    cases da <;> cases db <;> try rfl
    exact absurd ⟨rfl, rfl⟩ hn
  · intro a b x y ha hb
    rcases a with ⟨wa⟩
    rcases b with ⟨wb⟩
    cases hna : (⟨wa⟩ : nan_tagged.Value).is_number <;>
      cases hnb : (⟨wb⟩ : nan_tagged.Value).is_number <;>
      simp [nan_tagged.Value.as_number, hna, hnb,
        nan_tagged.Value.as_number_unchecked] at ha hb
    subst ha; subst hb
    simp [nan_tagged.combine, hna, hnb, nan_tagged.Value.as_number_unchecked]
  · intro a b hn
    cases hna : a.is_number <;> cases hnb : b.is_number <;>
      simp [nan_tagged.combine, hna, hnb]
    exact absurd ⟨hna, hnb⟩ hn
  · have h2 : (nan_tagged.Value.from_number 0x4000000000000000).is_number = true := by
      decide
    have h3 : (nan_tagged.Value.from_number 0x4008000000000000).is_number = true := by
      decide
    simp [nan_tagged.combine, h2, h3, nan_tagged.Value.as_number_unchecked,
      nan_tagged.Value.from_number, habc]
    decide
  · intro b
    have h0 : nan_tagged.Value.from_nil.is_number = false := by decide
    cases hnb : b.is_number <;> simp [nan_tagged.combine, h0, hnb]
  · intro h b hh
    have h0 : (nan_tagged.Value.from_userdata h).is_number = false :=
      (nan_tagged.from_userdata_classifies hh).2.2
    cases hnb : b.is_number <;> simp [nan_tagged.combine, h0, hnb]

/-- Concrete instances of claim C1 with fadd fixed to the constant
function returning the bit pattern of 5.0 (which satisfies the IEEE fact
on the bit patterns of 2.0 and 3.0): the aligned table entry for
2.0 + 3.0, a NaN-Tagged pair with a Nil operand, and an unaligned pair
with a Nil operand. -/
theorem combine_kernel_correct_witness :
    aligned_tagged.combine (fun _ _ => 0x4014000000000000)
      (.Number 0x4000000000000000) (.Number 0x4008000000000000) =
      .Number 0x4014000000000000 ∧
    nan_tagged.combine (fun _ _ => 0x4014000000000000)
      nan_tagged.Value.from_nil (nan_tagged.Value.from_number 0) =
      nan_tagged.Value.from_nil ∧
    unaligned_tagged.combine (fun _ _ => 0x4014000000000000)
      unaligned_tagged.Value.from_nil (unaligned_tagged.Value.from_number 0) =
      unaligned_tagged.Value.from_nil := by
  obtain ⟨ha1, ha2, ha3, hs1, hs2, hu1, hu2, hn1, hn2, hn3, hn4, hn5⟩ :=
    combine_kernel_correct (fun _ _ => 0x4014000000000000) rfl
  exact ⟨ha3, hn4 (nan_tagged.Value.from_number 0), hu2 _ _ (by decide)⟩

/-- Claim C7: with N = 1000000, x nil on multiples of 13 and y nil on
multiples of 33, one pass of the combine kernel leaves a results array
whose nil count equals the count of indices i below N with i % 13 = 0 or
i % 33 = 0, identically in all four layouts.  The hypotheses record that
the products i * 1.92 and i * 3.13 and the sums of two such numbers are
ordinary doubles for the NaN-Tagged layout: the inputs classify as
Number and the sums do not hit the Nil sentinel. -/
theorem end_to_end_nil_count (fadd : Nat → Nat → Nat) (xnum ynum : Nat → Nat)
    (hx : ∀ i, (nan_tagged.Value.from_number (xnum i)).is_number = true)
    (hy : ∀ i, (nan_tagged.Value.from_number (ynum i)).is_number = true)
    (hadd : ∀ i,
      (nan_tagged.Value.from_number (fadd (xnum i) (ynum i))).is_nil = false) :
    aligned_tagged.nil_count fadd xnum ynum = reference_nil_count ∧
    separated_type_info.nil_count fadd xnum ynum = reference_nil_count ∧
    unaligned_tagged.nil_count fadd xnum ynum = reference_nil_count ∧
    nan_tagged.nil_count fadd xnum ynum = reference_nil_count := by
  refine ⟨?_, ?_, ?_, ?_⟩
  · unfold aligned_tagged.nil_count reference_nil_count
    refine congrArg Finset.card (Finset.filter_congr ?_)
    intro i _
    unfold aligned_tagged.bench_result aligned_tagged.x_input aligned_tagged.y_input
    by_cases h13 : i % X_NIL_RATE = 0 <;> by_cases h33 : i % Y_NIL_RATE = 0 <;>
      simp [h13, h33, aligned_tagged.combine, aligned_tagged.Value.is_nil]
  · unfold separated_type_info.nil_count reference_nil_count
    refine congrArg Finset.card (Finset.filter_congr ?_)
    intro i _
    unfold separated_type_info.bench_result separated_type_info.x_data
      separated_type_info.x_ts separated_type_info.y_data separated_type_info.y_ts
    by_cases h13 : i % X_NIL_RATE = 0 <;> by_cases h33 : i % Y_NIL_RATE = 0 <;>
      simp [h13, h33, separated_type_info.combine,
        separated_type_info.ValueKind.is_nil]
  · unfold unaligned_tagged.nil_count reference_nil_count
    refine congrArg Finset.card (Finset.filter_congr ?_)
    intro i _
    unfold unaligned_tagged.bench_result unaligned_tagged.x_input
      unaligned_tagged.y_input
    by_cases h13 : i % X_NIL_RATE = 0 <;> by_cases h33 : i % Y_NIL_RATE = 0 <;>
      simp [h13, h33, unaligned_tagged.combine, unaligned_tagged.Value.is_nil,
        unaligned_tagged.Value.from_nil, unaligned_tagged.Value.from_number]
  · unfold nan_tagged.nil_count reference_nil_count
    refine congrArg Finset.card (Finset.filter_congr ?_)
    intro i _
    unfold nan_tagged.bench_result nan_tagged.x_input nan_tagged.y_input
    have hfn : nan_tagged.Value.from_nil.is_number = false := by decide
    have hfnil : nan_tagged.Value.from_nil.is_nil = true := by decide
    have hbits : ∀ z : Nat, (nan_tagged.Value.from_number z).bits = z :=
      fun _ => rfl
    by_cases h13 : i % X_NIL_RATE = 0 <;> by_cases h33 : i % Y_NIL_RATE = 0 <;>
      simp [h13, h33, nan_tagged.combine, hfn, hfnil, hx i, hy i, hadd i,
        nan_tagged.Value.as_number_unchecked, hbits]

/-- Concrete instance of claim C7 at the constant-zero bit-pattern
families (0.0 is an ordinary double, so the hypotheses hold by
evaluation). -/
theorem end_to_end_nil_count_witness :
    nan_tagged.nil_count (fun _ _ => 0) (fun _ => 0) (fun _ => 0) =
      reference_nil_count ∧
    aligned_tagged.nil_count (fun _ _ => 0) (fun _ => 0) (fun _ => 0) =
      reference_nil_count := by
  have base1 : (nan_tagged.Value.from_number 0).is_number = true := by decide
  have base2 : (nan_tagged.Value.from_number 0).is_nil = false := by decide
  obtain ⟨h1, h2, h3, h4⟩ :=
    end_to_end_nil_count (fun _ _ => 0) (fun _ => 0) (fun _ => 0)
      (fun _ => base1) (fun _ => base1) (fun _ => base2)
  exact ⟨h4, h1⟩

end VmBench
